import Mathlib

/-!
Verification of the SHAPEIT4 parameter-configuration front-end
(`src/phaser/phaser_parameters.cpp`): option registry, command-line flow,
validation (`check_options`), file reporting (`verbose_files`) and the
MCMC iteration-scheme mini-language.

The iteration-scheme compiler (`parse_iteration_scheme`) is declared and
called in the source but its body is not part of the given sources, so it
is modelled from the specification of the schedule mini-language.
Doubles are embedded as rationals (`Rat`); machine `int` as `Int`.
-/

/-- A phase kind of the MCMC sampling schedule: burn-in, pruning or main. -/
inductive PhaseKind
  | burnin
  | pruning
  | main
  deriving DecidableEq, Repr

/-- One parsed scheme token: a positive repeat count and a phase kind. -/
structure IterationToken where
  repeatCount : Nat
  kind : PhaseKind
  deriving DecidableEq, Repr

/-- Errors of the iteration-scheme mini-language. -/
inductive SchemeError
  | MalformedToken (tok : String)
  | UnknownPhaseKind (c : Char)
  | EmptySchedule
  deriving DecidableEq, Repr

/-- Modelled from the spec: the fixed kind-character table of the Schedule
Compiler: b maps to burn-in, p to pruning, m to main; anything else is
unknown. -/
def charKind : Char → Option PhaseKind
  | 'b' => some PhaseKind.burnin
  | 'p' => some PhaseKind.pruning
  | 'm' => some PhaseKind.main
  | _ => none

/-- Numeric value of a list of decimal digit characters. -/
def digitsToNat (l : List Char) : Nat :=
  l.foldl (fun acc c => 10 * acc + (c.toNat - '0'.toNat)) 0

/-- Modelled from the spec: the tokenizer splits the scheme string on commas;
doubled, leading or trailing commas yield empty elements. -/
def splitCommas : List Char → List (List Char)
  | [] => [[]]
  | c :: cs =>
    match splitCommas cs with
    | [] => [[]]
    | g :: gs => if c = ',' then [] :: g :: gs else (c :: g) :: gs

/-- Modelled from the spec: one scheme element must be one-or-more decimal
digits followed by exactly one kind character; a zero repeat count is never
valid; a kind character outside b, p, m is an unknown phase kind. -/
def parseToken (l : List Char) : Except SchemeError IterationToken :=
  if (l.takeWhile Char.isDigit).length = 0 then
    Except.error (SchemeError.MalformedToken (String.mk l))
  else
    match l.drop (l.takeWhile Char.isDigit).length with
    | [c] =>
      if digitsToNat (l.takeWhile Char.isDigit) = 0 then
        Except.error (SchemeError.MalformedToken (String.mk l))
      else
        match charKind c with
        | some k => Except.ok ⟨digitsToNat (l.takeWhile Char.isDigit), k⟩
        | none => Except.error (SchemeError.UnknownPhaseKind c)
    | _ => Except.error (SchemeError.MalformedToken (String.mk l))

/-- Modelled from the spec: parse every comma-separated element in order,
failing on the first malformed one. -/
def parseTokens : List (List Char) → Except SchemeError (List IterationToken)
  | [] => Except.ok []
  | l :: ls =>
    match parseToken l with
    | Except.error e => Except.error e
    | Except.ok t =>
      match parseTokens ls with
      | Except.error e => Except.error e
      | Except.ok ts => Except.ok (t :: ts)

/-- Modelled from the spec: `phaser::parse_iteration_scheme` — the empty
string has zero tokens and is an empty schedule; otherwise every
comma-separated element is parsed into an iteration token. -/
def parse_iteration_scheme (s : String) : Except SchemeError (List IterationToken) :=
  if s = "" then Except.error SchemeError.EmptySchedule
  else parseTokens (splitCommas s.toList)

/-- Expansion of one token into `repeatCount` copies of its kind. -/
def expandToken (t : IterationToken) : List PhaseKind :=
  List.replicate t.repeatCount t.kind

/-- Modelled from the spec: the Schedule Compiler appends, token by token in
source order, `repeatCount` copies of the mapped phase kind. -/
def compilePlan : List IterationToken → List PhaseKind
  | [] => []
  | t :: ts => expandToken t ++ compilePlan ts

/-- Full pipeline from scheme string to compiled phase plan. -/
def compile_scheme (s : String) : Except SchemeError (List PhaseKind) :=
  match parse_iteration_scheme s with
  | Except.error e => Except.error e
  | Except.ok ts => Except.ok (compilePlan ts)

/-- Sum of the repeat counts of a token sequence. -/
def sumRepeatCounts (ts : List IterationToken) : Nat :=
  (ts.map IterationToken.repeatCount).sum

/-- Prepend one phase onto a run-length grouping, extending the first run
when the kind matches. -/
def pushRun (k : PhaseKind) : List IterationToken → List IterationToken
  | [] => [⟨1, k⟩]
  | t :: ts => if t.kind = k then ⟨t.repeatCount + 1, k⟩ :: ts else ⟨1, k⟩ :: t :: ts

/-- Regroup a phase sequence into maximal runs of identical adjacent kinds. -/
def groupRuns : List PhaseKind → List IterationToken
  | [] => []
  | k :: rest => pushRun k (groupRuns rest)

example : parse_iteration_scheme "1b,2p" =
    Except.ok [⟨1, PhaseKind.burnin⟩, ⟨2, PhaseKind.pruning⟩] := rfl

example : compile_scheme "2b,1m" =
    Except.ok [PhaseKind.burnin, PhaseKind.burnin, PhaseKind.main] := rfl

example : parse_iteration_scheme "" = Except.error SchemeError.EmptySchedule := rfl

example : parse_iteration_scheme "0b" =
    Except.error (SchemeError.MalformedToken "0b") := rfl

example : parse_iteration_scheme "3x" =
    Except.error (SchemeError.UnknownPhaseKind 'x') := rfl

example : parse_iteration_scheme "b,1p" =
    Except.error (SchemeError.MalformedToken "b") := rfl

example : groupRuns [PhaseKind.burnin, PhaseKind.burnin, PhaseKind.main] =
    [⟨2, PhaseKind.burnin⟩, ⟨1, PhaseKind.main⟩] := rfl

/-- The slice of the parsed option state (`bpo::variables_map options`) that
the validated configuration reads: presence of file/region options, scalar
values, and the per-option defaulted bit (`options[name].defaulted()`).
Options with a declared default (seed, thread, effective-size, window,
mcmc-iterations) are always present in the map, so they carry a value here. -/
structure ParameterSet where
  input : Option String
  reference : Option String
  scaffold : Option String
  map : Option String
  region : Option String
  output : Option String
  log : Option String
  seed : Int
  seed_defaulted : Bool
  thread : Int
  thread_defaulted : Bool
  effective_size : Int
  effective_size_defaulted : Bool
  window : Rat
  window_defaulted : Bool
  mcmc_iterations : String
  deriving DecidableEq, Repr

/-- The fatal conditions raised via `vrb.error` in `phaser::check_options`,
in source order, plus propagated scheme-compiler failures. -/
inductive FatalError
  | missingInput
  | missingRegion
  | missingOutput
  | badSeed
  | badThread
  | badEffectiveSize
  | badWindow
  | scheme (e : SchemeError)
  deriving DecidableEq, Repr

/-- The diagnostic message printed for each fatal condition, verbatim from
the source. -/
def fatalMessage : FatalError → String
  | FatalError.missingInput => "You must specify one input file using --input"
  | FatalError.missingRegion => "You must specify a region or chromosome to phase using --region"
  | FatalError.missingOutput => "You must specify a phased output file with --output"
  | FatalError.badSeed => "Random number generator needs a positive seed value"
  | FatalError.badThread => "You must use at least 1 thread"
  | FatalError.badEffectiveSize => "You must specify a positive effective size"
  | FatalError.badWindow => "You must specify a window size comprised between 0.5 and 10 cM"
  | FatalError.scheme _ => "Invalid iteration scheme"

/-- The warning text of the thread/seed reproducibility advisory. -/
def reproducibility_warning : String :=
  "Using multi-threading prevents reproducing a run by specifying --seed"

/-- Outcome of `phaser::check_options`: the warnings emitted before the
first fatal condition, the first fatal condition (`vrb.error` terminates the
process, so at most one is reported — modelled from the spec), and the
compiled phase plan on success. -/
structure CheckResult where
  warnings : List String
  fatal : Option FatalError
  plan : Option (List PhaseKind)
  deriving DecidableEq, Repr

/-- The advisory warnings emitted by `phaser::check_options` once control
reaches past the thread check: the thread/seed reproducibility warning fires
exactly when neither `--thread` nor `--seed` took its default. -/
def warningsOf (p : ParameterSet) : List String :=
  if p.thread_defaulted = false ∧ p.seed_defaulted = false
    then [reproducibility_warning] else []

/-- `phaser::check_options`, check for check in source order: required
presence of input, region, output; seed nonnegative; at least one thread;
the advisory thread/seed warning; effective size positive when
user-supplied; window size within half to ten cM when user-supplied;
finally the iteration scheme is compiled. -/
def check_options (p : ParameterSet) : CheckResult :=
  if p.input = none then ⟨[], some FatalError.missingInput, none⟩
  else if p.region = none then ⟨[], some FatalError.missingRegion, none⟩
  else if p.output = none then ⟨[], some FatalError.missingOutput, none⟩
  else if p.seed < 0 then ⟨[], some FatalError.badSeed, none⟩
  else if p.thread < 1 then ⟨[], some FatalError.badThread, none⟩
  else if p.effective_size_defaulted = false ∧ p.effective_size < 1 then
    ⟨warningsOf p, some FatalError.badEffectiveSize, none⟩
  else if p.window_defaulted = false ∧ (p.window < 1/2 ∨ 10 < p.window) then
    ⟨warningsOf p, some FatalError.badWindow, none⟩
  else
    match compile_scheme p.mcmc_iterations with
    | Except.error e => ⟨warningsOf p, some (FatalError.scheme e), none⟩
    | Except.ok plan => ⟨warningsOf p, none, some plan⟩

/-- The structured form of one line printed by `phaser::verbose_files`. -/
inductive FileLine
  | filesTitle
  | inputVCF (path : String)
  | referenceVCF (path : String)
  | scaffoldVCF (path : String)
  | geneticMap (path : String)
  | outputVCF (path : String)
  | outputLOG (path : String)
  deriving DecidableEq, Repr

/-- The text of each file-listing line, verbatim from the source. -/
def renderFileLine : FileLine → String
  | FileLine.filesTitle => "Files:"
  | FileLine.inputVCF p => "Input VCF     : [" ++ p ++ "]"
  | FileLine.referenceVCF p => "Reference VCF : [" ++ p ++ "]"
  | FileLine.scaffoldVCF p => "Scaffold VCF  : [" ++ p ++ "]"
  | FileLine.geneticMap p => "Genetic Map   : [" ++ p ++ "]"
  | FileLine.outputVCF p => "Output VCF    : [" ++ p ++ "]"
  | FileLine.outputLOG p => "Output LOG    : [" ++ p ++ "]"

/-- `phaser::verbose_files`: title, unconditional input line, conditional
reference/scaffold/map lines, unconditional output line, conditional log
line, in source order. -/
def verbose_files (p : ParameterSet) : List FileLine :=
  [FileLine.filesTitle, FileLine.inputVCF (p.input.getD "")] ++
  (match p.reference with | some r => [FileLine.referenceVCF r] | none => []) ++
  (match p.scaffold with | some s => [FileLine.scaffoldVCF s] | none => []) ++
  (match p.map with | some m => [FileLine.geneticMap m] | none => []) ++
  [FileLine.outputVCF (p.output.getD "")] ++
  (match p.log with | some l => [FileLine.outputLOG l] | none => [])

/-- Declared value type and default of one command-line option. -/
inductive OptValue
  | intVal (dflt : Option Int)
  | dblVal (dflt : Option Rat)
  | strVal (dflt : Option String)
  | flagVal
  deriving DecidableEq, Repr

/-- One row of the option registry: long name, optional single-character
alias, value type with optional default, and help text. -/
structure OptionDecl where
  name : String
  shortAlias : Option Char
  value : OptValue
  description : String
  deriving DecidableEq, Repr

/-- One named section of the option registry. -/
structure OptionSection where
  title : String
  opts : List OptionDecl
  deriving DecidableEq, Repr

/-- `phaser::declare_options`: the full declarative option table, section by
section in source order. -/
def declare_options : List OptionSection :=
  [⟨"Basic options",
    [⟨"help", none, OptValue.flagVal, "Produce help message"⟩,
     ⟨"seed", none, OptValue.intVal (some 15052011), "Seed of the random number generator"⟩,
     ⟨"thread", some 'T', OptValue.intVal (some 1), "Number of thread used"⟩]⟩,
   ⟨"Input files",
    [⟨"input", some 'I', OptValue.strVal none, "Genotypes to be phased in VCF/BCF format"⟩,
     ⟨"reference", some 'H', OptValue.strVal none, "Reference panel of haplotypes in VCF/BCF format"⟩,
     ⟨"scaffold", some 'S', OptValue.strVal none, "Scaffold of haplotypes in VCF/BCF format"⟩,
     ⟨"map", some 'M', OptValue.strVal none, "Genetic map"⟩,
     ⟨"region", some 'R', OptValue.strVal none, "Target region"⟩,
     ⟨"use-PS", none, OptValue.dblVal none, "Informs phasing using PS field from read based phasing"⟩]⟩,
   ⟨"MCMC parameters",
    [⟨"mcmc-iterations", none, OptValue.strVal (some "5b,1p,1b,1p,1b,1p,5m"), "Iteration scheme of the MCMC"⟩,
     ⟨"mcmc-prune", none, OptValue.dblVal (some (999/1000)), "Pruning threshold in genotype graphs"⟩]⟩,
   ⟨"PBWT parameters",
    [⟨"pbwt-modulo", none, OptValue.dblVal (some (25/1000)), "Storage frequency of PBWT indexes in cM (i.e. 0.025 means storage every 0.025 cM)"⟩,
     ⟨"pbwt-depth", none, OptValue.intVal (some 4), "Depth of PBWT indexes to condition on"⟩,
     ⟨"pbwt-mac", none, OptValue.intVal (some 2), "Minimal Minor Allele Count at which PBWT is evaluated"⟩,
     ⟨"pbwt-mdr", none, OptValue.dblVal (some (50/1000)), "Maximal Missing Data Rate at which PBWT is evaluated"⟩]⟩,
   ⟨"IBD2 parameters",
    [⟨"ibd2-length", none, OptValue.dblVal (some 3), "Minimal size of IBD2 tracks for building copying constraints"⟩,
     ⟨"ibd2-maf", none, OptValue.dblVal (some (1/100)), "Minimal Minor Allele Frequency for variants to be considered in the IBD2 mapping"⟩,
     ⟨"ibd2-mdr", none, OptValue.dblVal (some (50/1000)), "Maximal Missing data rate for variants to be considered in the IBD2 mapping"⟩,
     ⟨"ibd2-count", none, OptValue.intVal (some 150), "Minimal number of filtered variants in IBD2 tracks"⟩,
     ⟨"ibd2-output", none, OptValue.strVal none, "Output all IBD2 constraints in the specified file (useful for debugging!)"⟩]⟩,
   ⟨"HMM parameters",
    [⟨"window", some 'W', OptValue.dblVal (some (25/10)), "Minimal size of the phasing window in cM"⟩,
     ⟨"effective-size", none, OptValue.intVal (some 15000), "Effective size of the population"⟩]⟩,
   ⟨"Output files",
    [⟨"output", some 'O', OptValue.strVal none, "Phased haplotypes in VCF/BCF format"⟩,
     ⟨"log", none, OptValue.strVal none, "Log file"⟩]⟩]

/-- Look an option up by long name across all sections of the registry. -/
def findOption (name : String) : Option OptionDecl :=
  (declare_options.map OptionSection.opts).flatten.find? (fun o => o.name == name)

/-- The declared integer default of an option, zero when it has none. -/
def defaultInt (name : String) : Int :=
  match findOption name with
  | some ⟨_, _, OptValue.intVal (some d), _⟩ => d
  | _ => 0

/-- The declared rational default of an option, zero when it has none. -/
def defaultDbl (name : String) : Rat :=
  match findOption name with
  | some ⟨_, _, OptValue.dblVal (some d), _⟩ => d
  | _ => 0

/-- The declared string default of an option, empty when it has none. -/
def defaultStr (name : String) : String :=
  match findOption name with
  | some ⟨_, _, OptValue.strVal (some d), _⟩ => d
  | _ => ""

/-- The generic parser's default resolution (`bpo::store`/`notify`): a value
the user omitted takes the registry default and is marked defaulted. -/
def mkParameterSet (input reference scaffold map region output log : Option String)
    (seed thread effective_size : Option Int) (window : Option Rat)
    (mcmc_iterations : Option String) : ParameterSet :=
  ⟨input, reference, scaffold, map, region, output, log,
   seed.getD (defaultInt "seed"), seed.isNone,
   thread.getD (defaultInt "thread"), thread.isNone,
   effective_size.getD (defaultInt "effective-size"), effective_size.isNone,
   window.getD (defaultDbl "window"), window.isNone,
   mcmc_iterations.getD (defaultStr "mcmc-iterations")⟩

/-- Replace only the two defaulted bits the reproducibility advisory reads,
leaving every validated value unchanged. -/
def setThreadSeedDefaulted (p : ParameterSet) (td sd : Bool) : ParameterSet :=
  ⟨p.input, p.reference, p.scaffold, p.map, p.region, p.output, p.log,
   p.seed, sd, p.thread, td, p.effective_size, p.effective_size_defaulted,
   p.window, p.window_defaulted, p.mcmc_iterations⟩

/-- The checks of `check_options` that precede the reproducibility warning:
input, region and output present, seed nonnegative, at least one thread. -/
def passes_preliminary_checks (p : ParameterSet) : Prop :=
  p.input ≠ none ∧ p.region ≠ none ∧ p.output ≠ none ∧ 0 ≤ p.seed ∧ 1 ≤ p.thread

/-- The effective-size check passes: the option was defaulted or its value
is at least one. -/
def passes_effective_size_check (p : ParameterSet) : Prop :=
  p.effective_size_defaulted = true ∨ 1 ≤ p.effective_size

/-- Outcome of the generic option parser (`bpo::store` plus `notify`) on one
argument vector: success, or rejection with a diagnostic. -/
inductive ParseOutcome
  | ok
  | err (msg : String)
  deriving DecidableEq, Repr

/-- Modelled from the spec: `vrb.error` exits with a non-success status;
this is its exit code. -/
def vrb_error_code : Nat := 1

/-- Observable outcome of `phaser::parse_command_line`: diagnostic lines
written to the error stream, whether the option table was printed for
`--help`, whether the banner was printed, and the exit status when the
function terminates the process. -/
structure CmdResult where
  stderrLines : List String
  helpPrinted : Bool
  bannerPrinted : Bool
  exitCode : Option Nat
  deriving DecidableEq, Repr

/-- `phaser::parse_command_line`: a parser exception prints a diagnostic to
the error stream and calls `exit(0)`; `--help` prints the option table and
calls `exit(0)`; a `--log` path that cannot be opened is a fatal `vrb.error`
(modelled from the spec as a non-success exit) raised before the banner;
otherwise the banner is printed and control returns. -/
def parse_command_line (r : ParseOutcome) (help : Bool) (log : Option String)
    (logOpenOk : Bool) : CmdResult :=
  match r with
  | ParseOutcome.err m =>
    ⟨["Error parsing command line arguments: " ++ m], false, false, some 0⟩
  | ParseOutcome.ok =>
    if help then ⟨[], true, false, some 0⟩
    else
      match log with
      | some path =>
        if logOpenOk then ⟨[], false, true, none⟩
        else ⟨["Impossible to create log file [" ++ path ++ "]"], false, false,
          some vrb_error_code⟩
      | none => ⟨[], false, true, none⟩

/-- Modelled from the spec: the startup pipeline runs `parse_command_line`
and, only when it did not terminate the process, `check_options`. -/
def run_configuration (r : ParseOutcome) (help : Bool) (log : Option String)
    (logOpenOk : Bool) (p : ParameterSet) : CmdResult × Option CheckResult :=
  let c := parse_command_line r help log logOpenOk
  if c.exitCode.isSome then (c, none) else (c, some (check_options p))

example : (mkParameterSet none none none none none none none none none none
    none none).seed = 15052011 := rfl

theorem pushRun_head_kind (k : PhaseKind) (ts : List IterationToken) :
    (pushRun k ts).head?.map IterationToken.kind = some k := by
  cases ts with
  | nil => rfl
  | cons t ts => simp only [pushRun]; split <;> rfl

theorem groupRuns_head_kind (l : List PhaseKind) :
    (groupRuns l).head?.map IterationToken.kind = l.head? := by
  cases l with
  | nil => rfl
  | cons k rest => simp [groupRuns, pushRun_head_kind]

theorem groupRuns_replicate_append (n : Nat) (k : PhaseKind) (l : List PhaseKind)
    (hn : 1 ≤ n) (hhead : ∀ k', l.head? = some k' → k' ≠ k) :
    groupRuns (List.replicate n k ++ l) = ⟨n, k⟩ :: groupRuns l := by
  induction n with
  | zero => omega
  | succ m ih =>
    cases m with
    | zero =>
      show groupRuns (List.replicate 1 k ++ l) = _
      rw [List.replicate_one, List.cons_append, List.nil_append]
      show pushRun k (groupRuns l) = _
      cases hg : groupRuns l with
      | nil => rfl
      | cons t ts =>
        have hk : some t.kind = l.head? := by
          have := groupRuns_head_kind l
          rw [hg] at this
          simpa using this
        have htk : t.kind ≠ k := hhead t.kind hk.symm
        simp [pushRun, htk]
    | succ m' =>
      have ihh := ih (Nat.succ_le_succ (Nat.zero_le m'))
      rw [List.replicate_succ, List.cons_append]
      show pushRun k (groupRuns (List.replicate (m' + 1) k ++ l)) = _
      rw [ihh]
      simp [pushRun]

theorem compilePlan_length (ts : List IterationToken) :
    (compilePlan ts).length = sumRepeatCounts ts := by
  induction ts with
  | nil => rfl
  | cons t ts ih => simp [compilePlan, expandToken, sumRepeatCounts, ih]

theorem compilePlan_head (t : IterationToken) (ts : List IterationToken)
    (ht : 1 ≤ t.repeatCount) :
    (compilePlan (t :: ts)).head? = some t.kind := by
  obtain ⟨m, hm⟩ : ∃ m, t.repeatCount = m + 1 := ⟨t.repeatCount - 1, by omega⟩
  show (expandToken t ++ compilePlan ts).head? = some t.kind
  rw [expandToken, hm, List.replicate_succ]
  rfl

theorem groupRuns_compilePlan (ts : List IterationToken)
    (hpos : ∀ t ∈ ts, 1 ≤ t.repeatCount)
    (hch : List.Chain' (fun a b : IterationToken => a.kind ≠ b.kind) ts) :
    groupRuns (compilePlan ts) = ts := by
  induction ts with
  | nil => rfl
  | cons t rest ih =>
    have ht : 1 ≤ t.repeatCount := hpos t (by simp)
    have hrest : ∀ u ∈ rest, 1 ≤ u.repeatCount := fun u hu => hpos u (by simp [hu])
    have hchr : List.Chain' (fun a b : IterationToken => a.kind ≠ b.kind) rest := hch.tail
    have hhead : ∀ k', (compilePlan rest).head? = some k' → k' ≠ t.kind := by
      intro k' hk'
      cases rest with
      | nil => simp [compilePlan] at hk'
      | cons u rest' =>
        have hu : 1 ≤ u.repeatCount := hrest u (by simp)
        rw [compilePlan_head u rest' hu] at hk'
        have htu : t.kind ≠ u.kind := (List.chain'_cons.mp hch).1
        injection hk' with h
        subst h
        exact Ne.symm htu
    show groupRuns (expandToken t ++ compilePlan rest) = t :: rest
    rw [expandToken, groupRuns_replicate_append t.repeatCount t.kind _ ht hhead,
      ih hrest hchr]

theorem parseToken_ok_pos (l : List Char) (t : IterationToken)
    (h : parseToken l = Except.ok t) : 1 ≤ t.repeatCount := by
  simp only [parseToken] at h
  split at h
  · simp at h
  · split at h
    · split at h
      · simp at h
      · split at h
        · injection h with h'
          subst h'
          simp only []
          omega
        · simp at h
    · simp at h

theorem parseTokens_ok_pos (ls : List (List Char)) (ts : List IterationToken)
    (h : parseTokens ls = Except.ok ts) : ∀ t ∈ ts, 1 ≤ t.repeatCount := by
  induction ls generalizing ts with
  | nil =>
    simp only [parseTokens] at h
    injection h with h'
    subst h'
    intro t ht
    simp at ht
  | cons l ls ih =>
    simp only [parseTokens] at h
    split at h
    · simp at h
    · split at h
      · simp at h
      · injection h with h'
        subst h'
        intro u hu
        rcases List.mem_cons.mp hu with rfl | hmem
        · exact parseToken_ok_pos l u (by assumption)
        · exact ih _ (by assumption) u hmem

theorem parse_scheme_ok_pos (s : String) (ts : List IterationToken)
    (h : parse_iteration_scheme s = Except.ok ts) : ∀ t ∈ ts, 1 ≤ t.repeatCount := by
  simp only [parse_iteration_scheme] at h
  split at h
  · simp at h
  · exact parseTokens_ok_pos _ ts h

/-- C1 counterexample: on an argument vector the option parser rejects, the
source prints the diagnostic to the error stream but then calls `exit(0)`,
so the process exits with the success status 0, not a non-success status. -/
theorem parse_error_exits_with_status_zero :
    (parse_command_line (ParseOutcome.err "unrecognised option") false none true).stderrLines =
      ["Error parsing command line arguments: unrecognised option"] ∧
    (parse_command_line (ParseOutcome.err "unrecognised option") false none true).exitCode =
      some 0 :=
  ⟨rfl, rfl⟩

/-- C1 (amended): for every argument vector the option parser rejects,
`parse_command_line` prints the diagnostic to the error stream and the
process exits — but with status 0, the success status. -/
theorem parse_error_prints_diagnostic_and_exits (m : String) (help : Bool)
    (log : Option String) (logOpenOk : Bool) :
    parse_command_line (ParseOutcome.err m) help log logOpenOk =
      ⟨["Error parsing command line arguments: " ++ m], false, false, some 0⟩ :=
  rfl

/-- C2 counterexample: the default scheme expands to 15 phases — the repeat
counts 5+1+1+1+1+1+5 sum to 15 — so the compiled plan does not have 14
phases. -/
theorem default_scheme_plan_is_not_14_phases :
    Except.map List.length (compile_scheme "5b,1p,1b,1p,1b,1p,5m") = Except.ok 15 ∧
    (15 : Nat) ≠ 14 :=
  ⟨rfl, by decide⟩

/-- C2 (amended): compiling the scheme string shipped as the default yields
the seven tokens 5b, 1p, 1b, 1p, 1b, 1p, 5m and a plan of exactly 15 phases
in the order 5 burn-in, 1 pruning, 1 burn-in, 1 pruning, 1 burn-in,
1 pruning, 5 main, with burn-in count 7, pruning count 3 and main count 5. -/
theorem default_scheme_compiles_to_15_phase_plan :
    parse_iteration_scheme "5b,1p,1b,1p,1b,1p,5m" =
      Except.ok [⟨5, PhaseKind.burnin⟩, ⟨1, PhaseKind.pruning⟩, ⟨1, PhaseKind.burnin⟩,
        ⟨1, PhaseKind.pruning⟩, ⟨1, PhaseKind.burnin⟩, ⟨1, PhaseKind.pruning⟩,
        ⟨5, PhaseKind.main⟩] ∧
    compile_scheme "5b,1p,1b,1p,1b,1p,5m" =
      Except.ok [PhaseKind.burnin, PhaseKind.burnin, PhaseKind.burnin, PhaseKind.burnin,
        PhaseKind.burnin, PhaseKind.pruning, PhaseKind.burnin, PhaseKind.pruning,
        PhaseKind.burnin, PhaseKind.pruning, PhaseKind.main, PhaseKind.main,
        PhaseKind.main, PhaseKind.main, PhaseKind.main] ∧
    ([PhaseKind.burnin, PhaseKind.burnin, PhaseKind.burnin, PhaseKind.burnin,
      PhaseKind.burnin, PhaseKind.pruning, PhaseKind.burnin, PhaseKind.pruning,
      PhaseKind.burnin, PhaseKind.pruning, PhaseKind.main, PhaseKind.main,
      PhaseKind.main, PhaseKind.main, PhaseKind.main].length = 15 ∧
     [PhaseKind.burnin, PhaseKind.burnin, PhaseKind.burnin, PhaseKind.burnin,
      PhaseKind.burnin, PhaseKind.pruning, PhaseKind.burnin, PhaseKind.pruning,
      PhaseKind.burnin, PhaseKind.pruning, PhaseKind.main, PhaseKind.main,
      PhaseKind.main, PhaseKind.main, PhaseKind.main].count PhaseKind.burnin = 7 ∧
     [PhaseKind.burnin, PhaseKind.burnin, PhaseKind.burnin, PhaseKind.burnin,
      PhaseKind.burnin, PhaseKind.pruning, PhaseKind.burnin, PhaseKind.pruning,
      PhaseKind.burnin, PhaseKind.pruning, PhaseKind.main, PhaseKind.main,
      PhaseKind.main, PhaseKind.main, PhaseKind.main].count PhaseKind.pruning = 3 ∧
     [PhaseKind.burnin, PhaseKind.burnin, PhaseKind.burnin, PhaseKind.burnin,
      PhaseKind.burnin, PhaseKind.pruning, PhaseKind.burnin, PhaseKind.pruning,
      PhaseKind.burnin, PhaseKind.pruning, PhaseKind.main, PhaseKind.main,
      PhaseKind.main, PhaseKind.main, PhaseKind.main].count PhaseKind.main = 5) :=
  ⟨rfl, rfl, by decide, by decide, by decide, by decide⟩

/-- C3 counterexample: the scheme "1b,1b" is valid, yet regrouping its
expanded plan into maximal runs of identical adjacent kinds yields the
single token 2b, not the original token sequence 1b, 1b. -/
theorem regroup_fails_on_adjacent_equal_kinds :
    parse_iteration_scheme "1b,1b" =
      Except.ok [⟨1, PhaseKind.burnin⟩, ⟨1, PhaseKind.burnin⟩] ∧
    groupRuns (compilePlan [⟨1, PhaseKind.burnin⟩, ⟨1, PhaseKind.burnin⟩]) =
      [⟨2, PhaseKind.burnin⟩] ∧
    ([⟨2, PhaseKind.burnin⟩] : List IterationToken) ≠
      [⟨1, PhaseKind.burnin⟩, ⟨1, PhaseKind.burnin⟩] :=
  ⟨rfl, rfl, by decide⟩

/-- C3 (amended): for every valid scheme string, the compiled plan length
equals the sum of the token repeat counts; and whenever no two adjacent
tokens share the same kind, regrouping the plan into maximal runs of
identical adjacent kinds reconstructs the original token sequence. -/
theorem scheme_plan_length_and_regroup (s : String) (ts : List IterationToken)
    (h : parse_iteration_scheme s = Except.ok ts) :
    (compilePlan ts).length = sumRepeatCounts ts ∧
    (List.Chain' (fun a b : IterationToken => a.kind ≠ b.kind) ts →
      groupRuns (compilePlan ts) = ts) :=
  ⟨compilePlan_length ts,
   fun hch => groupRuns_compilePlan ts (parse_scheme_ok_pos s ts h) hch⟩

/-- Witness for the amended C3 theorem at the default scheme string. -/
theorem scheme_plan_length_and_regroup_witness :
    (compilePlan [⟨5, PhaseKind.burnin⟩, ⟨1, PhaseKind.pruning⟩, ⟨1, PhaseKind.burnin⟩,
        ⟨1, PhaseKind.pruning⟩, ⟨1, PhaseKind.burnin⟩, ⟨1, PhaseKind.pruning⟩,
        ⟨5, PhaseKind.main⟩]).length =
      sumRepeatCounts [⟨5, PhaseKind.burnin⟩, ⟨1, PhaseKind.pruning⟩, ⟨1, PhaseKind.burnin⟩,
        ⟨1, PhaseKind.pruning⟩, ⟨1, PhaseKind.burnin⟩, ⟨1, PhaseKind.pruning⟩,
        ⟨5, PhaseKind.main⟩] ∧
    (List.Chain' (fun a b : IterationToken => a.kind ≠ b.kind)
        [⟨5, PhaseKind.burnin⟩, ⟨1, PhaseKind.pruning⟩, ⟨1, PhaseKind.burnin⟩,
          ⟨1, PhaseKind.pruning⟩, ⟨1, PhaseKind.burnin⟩, ⟨1, PhaseKind.pruning⟩,
          ⟨5, PhaseKind.main⟩] →
      groupRuns (compilePlan [⟨5, PhaseKind.burnin⟩, ⟨1, PhaseKind.pruning⟩,
          ⟨1, PhaseKind.burnin⟩, ⟨1, PhaseKind.pruning⟩, ⟨1, PhaseKind.burnin⟩,
          ⟨1, PhaseKind.pruning⟩, ⟨5, PhaseKind.main⟩]) =
        [⟨5, PhaseKind.burnin⟩, ⟨1, PhaseKind.pruning⟩, ⟨1, PhaseKind.burnin⟩,
          ⟨1, PhaseKind.pruning⟩, ⟨1, PhaseKind.burnin⟩, ⟨1, PhaseKind.pruning⟩,
          ⟨5, PhaseKind.main⟩]) :=
  scheme_plan_length_and_regroup "5b,1p,1b,1p,1b,1p,5m" _ rfl

/-- C8: the registry declares seed with default 15052011, thread with
default 1 and mcmc-iterations with the default scheme string, and a
ParameterSet parsed with those options omitted holds exactly those values,
marked as defaulted. -/
theorem registry_defaults_seed_thread_mcmc :
    findOption "seed" = some ⟨"seed", none, OptValue.intVal (some 15052011),
      "Seed of the random number generator"⟩ ∧
    findOption "thread" = some ⟨"thread", some 'T', OptValue.intVal (some 1),
      "Number of thread used"⟩ ∧
    findOption "mcmc-iterations" = some ⟨"mcmc-iterations", none,
      OptValue.strVal (some "5b,1p,1b,1p,1b,1p,5m"), "Iteration scheme of the MCMC"⟩ ∧
    (mkParameterSet none none none none none none none none none none none
      none).seed = 15052011 ∧
    (mkParameterSet none none none none none none none none none none none
      none).thread = 1 ∧
    (mkParameterSet none none none none none none none none none none none
      none).mcmc_iterations = "5b,1p,1b,1p,1b,1p,5m" ∧
    (mkParameterSet none none none none none none none none none none none
      none).seed_defaulted = true ∧
    (mkParameterSet none none none none none none none none none none none
      none).thread_defaulted = true :=
  ⟨rfl, rfl, rfl, rfl, rfl, rfl, rfl, rfl⟩

/-- C10: when --log names a path the log file cannot be created at, the
fatal message naming the path is reported, the process terminates with a
non-success status before the banner is printed, and validation never
runs. -/
theorem log_failure_fatal_before_banner (path : String) (p : ParameterSet) :
    (parse_command_line ParseOutcome.ok false (some path) false).stderrLines =
      ["Impossible to create log file [" ++ path ++ "]"] ∧
    (parse_command_line ParseOutcome.ok false (some path) false).bannerPrinted = false ∧
    (parse_command_line ParseOutcome.ok false (some path) false).exitCode =
      some vrb_error_code ∧
    (run_configuration ParseOutcome.ok false (some path) false p).2 = none :=
  ⟨rfl, rfl, rfl, rfl⟩

/-- C4: when --input is absent, check_options reports the missing-input
error first, whatever the (user-supplied, out-of-range) window value is:
required-presence checks run before range checks. -/
theorem check_options_missing_input_first (p : ParameterSet)
    (hin : p.input = none) (hwd : p.window_defaulted = false)
    (hw : p.window < 1/2 ∨ 10 < p.window) :
    check_options p = ⟨[], some FatalError.missingInput, none⟩ := by
  simp [check_options, hin]

/-- Witness for C4 at a concrete ParameterSet with no input and a
user-supplied window of 11 cM. -/
theorem check_options_missing_input_first_witness :
    check_options ⟨none, none, none, none, some "chr20", some "out.bcf", none,
      15052011, true, 1, true, 15000, true, 11, false, "5b,1p,1b,1p,1b,1p,5m"⟩ =
      ⟨[], some FatalError.missingInput, none⟩ :=
  check_options_missing_input_first _ rfl rfl (Or.inr (by norm_num))

/-- C6: once the three required options are present, check_options raises
the seed error exactly when the seed is negative: zero is accepted and
every negative seed is rejected. -/
theorem check_options_seed_boundary (p : ParameterSet)
    (hi : p.input ≠ none) (hr : p.region ≠ none) (ho : p.output ≠ none) :
    ((check_options p).fatal = some FatalError.badSeed ↔ p.seed < 0) := by
  by_cases hs : p.seed < 0
  · simp [check_options, hi, hr, ho, hs]
  · have hne : (check_options p).fatal ≠ some FatalError.badSeed := by
      unfold check_options
      rw [if_neg hi, if_neg hr, if_neg ho, if_neg hs]
      split_ifs <;> try simp
      cases hcs : compile_scheme p.mcmc_iterations <;> simp
    simp [hne, hs]

/-- Witness for C6: a seed of exactly 0 is accepted and a seed of -1 is
rejected, on otherwise-identical concrete ParameterSets. -/
theorem check_options_seed_boundary_witness :
    (check_options ⟨some "in.bcf", none, none, none, some "chr20", some "out.bcf",
        none, 0, false, 1, true, 15000, true, 5/2, true,
        "5b,1p,1b,1p,1b,1p,5m"⟩).fatal ≠ some FatalError.badSeed ∧
    (check_options ⟨some "in.bcf", none, none, none, some "chr20", some "out.bcf",
        none, -1, false, 1, true, 15000, true, 5/2, true,
        "5b,1p,1b,1p,1b,1p,5m"⟩).fatal = some FatalError.badSeed := by
  constructor
  · intro h
    have hlt := (check_options_seed_boundary _ (by simp) (by simp) (by simp)).mp h
    exact absurd hlt (by decide)
  · exact (check_options_seed_boundary _ (by simp) (by simp) (by simp)).mpr (by decide)

/-- C5: the window range check is skipped whenever --window took its
default, and when user-supplied it fails exactly outside the inclusive
range from one half to ten cM. -/
theorem check_options_window_boundary :
    (∀ p : ParameterSet, p.window_defaulted = true →
      (check_options p).fatal ≠ some FatalError.badWindow) ∧
    (∀ p : ParameterSet, passes_preliminary_checks p →
      passes_effective_size_check p → p.window_defaulted = false →
      ((check_options p).fatal = some FatalError.badWindow ↔
        (p.window < 1/2 ∨ 10 < p.window))) := by
  constructor
  · intro p hwd
    unfold check_options
    split_ifs <;> try simp_all
    cases hcs : compile_scheme p.mcmc_iterations <;> simp
  · intro p hpre heff hwd
    unfold passes_preliminary_checks at hpre
    obtain ⟨hi, hr, ho, hs, ht⟩ := hpre
    have hs' : ¬ p.seed < 0 := by omega
    have ht' : ¬ p.thread < 1 := by omega
    have heff' : ¬ (p.effective_size_defaulted = false ∧ p.effective_size < 1) := by
      rintro ⟨hd, hlt⟩
      unfold passes_effective_size_check at heff
      rcases heff with h | h
      · rw [h] at hd; cases hd
      · omega
    unfold check_options
    rw [if_neg hi, if_neg hr, if_neg ho, if_neg hs', if_neg ht', if_neg heff']
    by_cases hwin : p.window < 1/2 ∨ 10 < p.window
    · rw [if_pos ⟨hwd, hwin⟩]
      exact ⟨fun _ => hwin, fun _ => rfl⟩
    · rw [if_neg (fun hc => hwin hc.2)]
      cases hcs : compile_scheme p.mcmc_iterations <;>
        exact ⟨fun h => absurd h (by simp), fun h => absurd h hwin⟩

/-- Witness for C5 at the four boundary values: window sizes of exactly one
half and exactly ten are accepted, while 0.49999 and 10.00001 are
rejected. -/
theorem check_options_window_boundary_witness :
    (check_options ⟨some "in.bcf", none, none, none, some "chr20", some "out.bcf",
        none, 15052011, true, 1, true, 15000, true, 1/2, false,
        "5b,1p,1b,1p,1b,1p,5m"⟩).fatal ≠ some FatalError.badWindow ∧
    (check_options ⟨some "in.bcf", none, none, none, some "chr20", some "out.bcf",
        none, 15052011, true, 1, true, 15000, true, 10, false,
        "5b,1p,1b,1p,1b,1p,5m"⟩).fatal ≠ some FatalError.badWindow ∧
    (check_options ⟨some "in.bcf", none, none, none, some "chr20", some "out.bcf",
        none, 15052011, true, 1, true, 15000, true, 49999/100000, false,
        "5b,1p,1b,1p,1b,1p,5m"⟩).fatal = some FatalError.badWindow ∧
    (check_options ⟨some "in.bcf", none, none, none, some "chr20", some "out.bcf",
        none, 15052011, true, 1, true, 15000, true, 1000001/100000, false,
        "5b,1p,1b,1p,1b,1p,5m"⟩).fatal = some FatalError.badWindow := by
  refine ⟨?_, ?_, ?_, ?_⟩
  · intro h
    have hw := (check_options_window_boundary.2 _
      ⟨by simp, by simp, by simp, by decide, by decide⟩ (Or.inl rfl) rfl).mp h
    rcases hw with h1 | h1 <;> norm_num at h1
  · intro h
    have hw := (check_options_window_boundary.2 _
      ⟨by simp, by simp, by simp, by decide, by decide⟩ (Or.inl rfl) rfl).mp h
    rcases hw with h1 | h1 <;> norm_num at h1
  · exact (check_options_window_boundary.2 _
      ⟨by simp, by simp, by simp, by decide, by decide⟩ (Or.inl rfl) rfl).mpr
      (Or.inl (by norm_num))
  · exact (check_options_window_boundary.2 _
      ⟨by simp, by simp, by simp, by decide, by decide⟩ (Or.inl rfl) rfl).mpr
      (Or.inr (by norm_num))

/-- C7: once the checks preceding it pass, the reproducibility warning is
emitted exactly when both --thread and --seed were user-supplied (whatever
the thread value, including 1), and the two defaulted bits it reads have no
effect on the fatal outcome or the compiled plan. -/
theorem check_options_repro_warning :
    (∀ p : ParameterSet, passes_preliminary_checks p →
      ((check_options p).warnings = [reproducibility_warning] ↔
        (p.thread_defaulted = false ∧ p.seed_defaulted = false))) ∧
    (∀ p : ParameterSet, ∀ td sd : Bool,
      (check_options (setThreadSeedDefaulted p td sd)).fatal = (check_options p).fatal ∧
      (check_options (setThreadSeedDefaulted p td sd)).plan = (check_options p).plan) := by
  constructor
  · intro p hpre
    unfold passes_preliminary_checks at hpre
    obtain ⟨hi, hr, ho, hs, ht⟩ := hpre
    have hs' : ¬ p.seed < 0 := by omega
    have ht' : ¬ p.thread < 1 := by omega
    have hwarn : (check_options p).warnings = warningsOf p := by
      unfold check_options
      rw [if_neg hi, if_neg hr, if_neg ho, if_neg hs', if_neg ht']
      split_ifs <;> try rfl
      cases hcs : compile_scheme p.mcmc_iterations <;> rfl
    rw [hwarn]
    unfold warningsOf
    split_ifs with hcond
    · simp [hcond]
    · simp [hcond]
  · intro p td sd
    refine ⟨?_, ?_⟩ <;>
    · unfold check_options
      simp only [setThreadSeedDefaulted]
      split_ifs <;> try rfl
      cases hcs : compile_scheme p.mcmc_iterations <;> rfl

/-- Witness for C7: a user-supplied thread count of exactly 1 together with
a user-supplied seed triggers the warning, and erasing the two defaulted
bits leaves the fatal outcome unchanged. -/
theorem check_options_repro_warning_witness :
    (check_options ⟨some "in.bcf", none, none, none, some "chr20", some "out.bcf",
        none, 123, false, 1, false, 15000, true, 5/2, true,
        "5b,1p,1b,1p,1b,1p,5m"⟩).warnings = [reproducibility_warning] ∧
    (check_options (setThreadSeedDefaulted ⟨some "in.bcf", none, none, none,
        some "chr20", some "out.bcf", none, 123, false, 1, false, 15000, true,
        5/2, true, "5b,1p,1b,1p,1b,1p,5m"⟩ true true)).fatal =
      (check_options ⟨some "in.bcf", none, none, none, some "chr20",
        some "out.bcf", none, 123, false, 1, false, 15000, true, 5/2, true,
        "5b,1p,1b,1p,1b,1p,5m"⟩).fatal := by
  constructor
  · exact (check_options_repro_warning.1 _
      ⟨by simp, by simp, by simp, by decide, by decide⟩).mpr ⟨rfl, rfl⟩
  · exact (check_options_repro_warning.2 _ true true).1

/-- C9: the reporter's file listing contains a reference, scaffold, map or
log line exactly when the corresponding optional option is present, with
the option's path, and omits it otherwise. -/
theorem verbose_files_optional_lines (p : ParameterSet) :
    (∀ s, FileLine.referenceVCF s ∈ verbose_files p ↔ p.reference = some s) ∧
    (∀ s, FileLine.scaffoldVCF s ∈ verbose_files p ↔ p.scaffold = some s) ∧
    (∀ s, FileLine.geneticMap s ∈ verbose_files p ↔ p.map = some s) ∧
    (∀ s, FileLine.outputLOG s ∈ verbose_files p ↔ p.log = some s) := by
  refine ⟨fun s => ?_, fun s => ?_, fun s => ?_, fun s => ?_⟩ <;>
    cases href : p.reference <;> cases hsc : p.scaffold <;> cases hm : p.map <;>
      cases hl : p.log <;> simp [verbose_files, href, hsc, hm, hl, eq_comm]
